import Mathlib

/-!
Verification development for the Sequerizer query-building layer
(lib/Sequerizer.js).  The mutable builder object is embedded as an
explicit state record; every method of the class becomes a pure
function from (inputs, state) to (outcome, state).  The wrapped
Sequelize driver is a black box: each terminal operation takes the
driver call it performs as an explicit function argument returning
either a resolved value or a rejection message, mirroring the promise
returned by the real driver.
-/

namespace Sequerizer

/-- JavaScript runtime values, as far as the library inspects them
(typeof dispatch, Array.isArray dispatch, truthiness of lookups). -/
inductive JSVal where
  | null
  | bool (b : Bool)
  | num (n : Int)
  | str (s : String)
  | arr (elems : List JSVal)
  | obj (fields : List (String × JSVal))
  deriving Repr, BEq

/-- The typeof operator restricted to the value forms above.
Note typeof null and typeof an array are both the string object. -/
def jsTypeof : JSVal → String
  | .null => "object"
  | .bool _ => "boolean"
  | .num _ => "number"
  | .str _ => "string"
  | .arr _ => "object"
  | .obj _ => "object"

/-- Template-literal stringification of a value, used in error
messages.  Nested array/object rendering is elided (no claim inspects
those message fragments). -/
def jsToString : JSVal → String
  | .null => "null"
  | .bool b => if b then "true" else "false"
  | .num n => toString n
  | .str s => s
  | .arr _ => "[array]"
  | .obj _ => "[object Object]"

/-- JSON.stringify as used in the getOrCreate already-exists message;
nested serialization elided, no claim depends on its exact text. -/
def jsonStringify : JSVal → String
  | .null => "null"
  | .bool b => if b then "true" else "false"
  | .num n => toString n
  | .str s => "\"" ++ s ++ "\""
  | .arr _ => "[array json]"
  | .obj _ => "[object json]"

/-- A condition map (the JS object held in this.conditions), as an
insertion-ordered association list with unique keys. -/
abbrev Conds := List (String × JSVal)

/-- Property assignment o[k] = v on a JS object: replaces the binding
in place when the key is present (insertion order kept), otherwise
appends.  The builder API only ever produces unique-key lists, for
which this is exactly the JS semantics. -/
def objSet {V : Type} : List (String × V) → String → V → List (String × V)
  | [], k, v => [(k, v)]
  | p :: t, k, v => if p.1 == k then (k, v) :: t else p :: objSet t k v

/-- Object.assign(target, source): assigns each source binding onto
the target in source order. -/
def objAssign {V : Type} (target source : List (String × V)) : List (String × V) :=
  source.foldl (fun acc p => objSet acc p.1 p.2) target

/-- obj.hasOwnProperty(k). -/
def hasKey {V : Type} (o : List (String × V)) (k : String) : Bool :=
  o.any fun p => p.1 == k

/-- Values stored in the this.options map: the derived keys written by
buildOptions plus arbitrary passthrough values set via option(). -/
inductive OptVal where
  | whereV (c : Conds)
  | attrs (a : List String)
  | ord (o : List (String × String))
  | int (n : Int)
  | js (v : JSVal)
  deriving Repr, BEq

abbrev Options := List (String × OptVal)

/-- The mutable fields of a Sequerizer instance (constructor,
Sequerizer.js lines 10-27).  The transient inspectValue scratch slot
only feeds the immediately following mustBeAn check and is folded into
each operation directly. -/
structure State where
  identifier : String
  conditions : Conds
  orders : List (String × String)
  attributes : List String
  options : Options
  throwErrorFlag : Bool
  limitValue : Option Int
  offsetValue : Option Int
  deriving Repr, BEq

/-- Builder state right after the constructor ran on a table whose
name is the given identifier. -/
def initialState (identifier : String) : State :=
  { identifier := identifier
    conditions := []
    orders := []
    attributes := []
    options := []
    throwErrorFlag := false
    limitValue := none
    offsetValue := none }

/-- The error kinds the library can surface.  typeError models the
built-in TypeError raised by mustBeAn; referenceError models the
built-in ReferenceError raised when code evaluates an undefined
identifier; rawDriver models a driver rejection that escapes the
library unwrapped. -/
inductive SeqError where
  | modelError (msg : String)
  | createError (msg : String)
  | readError (msg : String)
  | notFoundError (msg : String)
  | updateError (msg : String)
  | deleteError (msg : String)
  | typeError (msg : String)
  | referenceError (msg : String)
  | rawDriver (msg : String)
  deriving Repr, BEq

/-- clear (lines 63-71): resets every builder field except the table
binding. -/
def clear (s : State) : State :=
  { identifier := s.identifier
    conditions := []
    options := []
    attributes := []
    orders := []
    throwErrorFlag := false
    limitValue := none
    offsetValue := none }

/-- Whether a state has the empty/default form the spec describes. -/
def isCleared (s : State) : Bool :=
  s.conditions.isEmpty && s.options.isEmpty && s.attributes.isEmpty &&
    s.orders.isEmpty && !s.throwErrorFlag && s.limitValue.isNone && s.offsetValue.isNone

/-- where (lines 100-107): a string key assigns one condition, an
object merges via Object.assign (an array source assigns its
index-string keys, a null source is a no-op); any other first argument
falls through both typeof branches and the builder is returned
unchanged. -/
def whereOp (columnOrConditions value : JSVal) (s : State) : State :=
  match columnOrConditions with
  | .str c => { s with conditions := objSet s.conditions c value }
  | .obj m => { s with conditions := objAssign s.conditions m }
  | .arr elems =>
      { s with conditions :=
          objAssign s.conditions (elems.enum.map fun p => (toString p.1, p.2)) }
  | .null => s
  | _ => s

/-- whereIn (lines 109-119): values must pass the typeof object check;
the stored condition value is the symbol-keyed object with the
Sequelize membership operator, rendered here with the key string
Op.in. -/
def whereIn (column : String) (values : JSVal) (s : State) : Except SeqError State :=
  if jsTypeof values != "object" then
    .error (.typeError "values in whereIn method must be an array")
  else
    .ok { s with conditions := objSet s.conditions column (.obj [("Op.in", values)]) }

/-- orderBy (lines 121-126): direction restricted to ASC/DESC up to
case; appends to the order list. -/
def orderBy (column direction : String) (s : State) : Except SeqError State :=
  if !(["ASC", "DESC"].contains direction.toUpper) then
    .error (.modelError "Order available: ASC or DESC")
  else
    .ok { s with orders := s.orders ++ [(column, direction.toUpper)] }

/-- setOrders (lines 129-132). -/
def setOrders (orders : List (String × String)) (s : State) : State :=
  { s with orders := orders }

/-- needColumns (lines 134-141): replaces the projection list.  The
typeof object check passes for every array, which is the only shape
used by the API and the claims. -/
def needColumns (columns : List String) (s : State) : State :=
  { s with attributes := columns }

/-- limit (lines 143-150): the argument must pass the typeof number
check before the field is assigned. -/
def limit (v : JSVal) (s : State) : Except SeqError State :=
  match v with
  | .num n => .ok { s with limitValue := some n }
  | _ => .error (.typeError "limit in limit method must be a number")

/-- offset (lines 152-156). -/
def offset (v : JSVal) (s : State) : Except SeqError State :=
  match v with
  | .num n => .ok { s with offsetValue := some n }
  | _ => .error (.typeError "Offset must be a number")

/-- buildOptions step 1 (lines 159-161): conditions become the where
key unless the overlay already defines it. -/
def ensureWhere (conds : Conds) (o : Options) : Options :=
  if hasKey o "where" then o else objSet o "where" (.whereV conds)

/-- buildOptions step 2 (lines 162-167): the projection becomes
attributes only when non-empty and not already present. -/
def ensureAttributes (a : List String) (o : Options) : Options :=
  if a.length > 0 && !hasKey o "attributes" then objSet o "attributes" (.attrs a) else o

/-- buildOptions step 3 (lines 168-170). -/
def ensureOrder (ords : List (String × String)) (o : Options) : Options :=
  if ords.length > 0 && !hasKey o "order" then objSet o "order" (.ord ords) else o

/-- buildOptions step 4 (lines 171-173): limit applied only when
non-null and not already present. -/
def ensureLimit (lv : Option Int) (o : Options) : Options :=
  match lv with
  | some n => if hasKey o "limit" then o else objSet o "limit" (.int n)
  | none => o

/-- buildOptions step 5 (lines 174-176). -/
def ensureOffset (ov : Option Int) (o : Options) : Options :=
  match ov with
  | some n => if hasKey o "offset" then o else objSet o "offset" (.int n)
  | none => o

/-- buildOptions (lines 158-177): mutates this.options in place,
applying the five derivation steps in source order. -/
def buildOptions (s : State) : State :=
  { s with options := ensureOffset s.offsetValue (ensureLimit s.limitValue (ensureOrder s.orders (ensureAttributes s.attributes (ensureWhere s.conditions s.options)))) }

/-- option (lines 179-186): merges passthrough options; mirrors the
where dispatch on typeof. -/
def optionOp (keyOrOptions value : JSVal) (s : State) : State :=
  match keyOrOptions with
  | .str k => { s with options := objSet s.options k (.js value) }
  | .obj m => { s with options := objAssign s.options (m.map fun p => (p.1, OptVal.js p.2)) }
  | .arr elems =>
      { s with options :=
          objAssign s.options (elems.enum.map fun p => (toString p.1, OptVal.js p.2)) }
  | .null => s
  | _ => s

/-- withError (lines 188-191). -/
def withError (value : Bool) (s : State) : State :=
  { s with throwErrorFlag := value }

/-- verify (lines 86-97) after its callback has been awaited: the
callback is modelled as a state transformer returning the resolved
value together with the builder state it left behind.  A non-boolean
result fails the mustBeAn check; a false result raises the generic
ModelError. -/
def verifyOp (cb : State → JSVal × State) (s : State) : Except SeqError State :=
  let r := cb s
  if jsTypeof r.1 != "boolean" then
    .error (.typeError "verify callback must return boolean value")
  else
    match r.1 with
    | .bool false => .error (.modelError "Unverified state occured")
    | _ => .ok r.2

/-- verifySync (lines 74-84): the synchronous twin of verify. -/
def verifySync (cb : State → JSVal × State) (s : State) : Except SeqError State :=
  let r := cb s
  if jsTypeof r.1 != "boolean" then
    .error (.typeError "verifySync callback must return boolean value")
  else
    match r.1 with
    | .bool false => .error (.modelError "Unverified state occured")
    | _ => .ok r.2

/-- create (lines 194-208): type check, one driver create call, wrap
rejection as CreateError.  Builder state is untouched on every path. -/
def create (drvCreate : JSVal → Except String JSVal) (data : JSVal) (s : State) :
    Except SeqError JSVal × State :=
  if jsTypeof data != "object" then
    (.error (.typeError "Inserted data must have type of object"), s)
  else
    match drvCreate data with
    | .ok r => (.ok r, s)
    | .error m =>
        (.error (.createError ("Error creating " ++ s.identifier ++ ": " ++ m)), s)

/-- insert (lines 210-229): dispatches on Array.isArray between
bulkCreate and create; wraps rejection as CreateError. -/
def insert (drvCreate : JSVal → Except String JSVal)
    (drvBulk : List JSVal → Except String (List JSVal)) (data : JSVal) (s : State) :
    Except SeqError JSVal × State :=
  if jsTypeof data != "object" then
    (.error (.typeError "Inserted data must be an object or array of objects"), s)
  else
    match data with
    | .arr items =>
        match drvBulk items with
        | .ok rs => (.ok (.arr rs), s)
        | .error m =>
            (.error (.createError ("Error inserting into " ++ s.identifier ++ ": " ++ m)), s)
    | _ =>
        match drvCreate data with
        | .ok r => (.ok r, s)
        | .error m =>
            (.error (.createError ("Error inserting into " ++ s.identifier ++ ": " ++ m)), s)

/-- get (lines 231-250): builds options, overrides where when an
explicit non-null object conditions argument is given, overrides
attributes when explicit columns are given, issues findAll, clears on
success, wraps rejection as ReadError.  The typeof object check on the
columns array always passes for arrays. -/
def get (drvFindAll : Options → Except String (List JSVal)) (columns : List String)
    (conditions : Option Conds) (s : State) : Except SeqError (List JSVal) × State :=
  let s1 := buildOptions s
  let s2 :=
    match conditions with
    | some c => { s1 with options := objSet s1.options "where" (.whereV c) }
    | none => s1
  let s3 :=
    if columns.length > 0 then
      { s2 with options := objSet s2.options "attributes" (.attrs columns) }
    else s2
  match drvFindAll s3.options with
  | .ok items => (.ok items, clear s3)
  | .error m => (.error (.readError ("Fail fetching data: " ++ m)), s3)

/-- getOrCreate (lines 252-274): findOrCreate on the given data; an
existing row with the throwErrorFlag flag set raises CreateError (thrown
before the flag reset); the catch rethrows CreateError unchanged and
wraps any other failure as ModelError. -/
def getOrCreate (drvFindOrCreate : JSVal → Except String (JSVal × Bool)) (data : JSVal)
    (s : State) : Except SeqError JSVal × State :=
  if jsTypeof data != "object" then
    (.error (.typeError "Inserted data must have type of object"), s)
  else
    match drvFindOrCreate data with
    | .error m =>
        (.error (.modelError ("Error creating or finding " ++ s.identifier ++ ": " ++ m)), s)
    | .ok (item, created) =>
        if !created && s.throwErrorFlag then
          (.error (.createError
            (s.identifier ++ " already exists with data " ++ jsonStringify data)), s)
        else
          (.ok item, { s with throwErrorFlag := false })

/-- getWhere (lines 277-290): reads with a locally built options
object (explicit conditions or the accumulated ones, plus projection),
clears on success, wraps rejection as ReadError. -/
def getWhere (drvFindAll : Options → Except String (List JSVal)) (conditions : Option Conds)
    (s : State) : Except SeqError (List JSVal) × State :=
  let withOptions := objSet ([] : Options) "where"
    (.whereV (match conditions with | some c => c | none => s.conditions))
  let withOptions :=
    if s.attributes.length > 0 then objSet withOptions "attributes" (.attrs s.attributes)
    else withOptions
  match drvFindAll withOptions with
  | .ok items => (.ok items, clear s)
  | .error m => (.error (.readError ("Fail fetching data: " ++ m)), s)

/-- find (lines 292-307): findByPk; a null result with the throwErrorFlag
flag set raises NotFoundError before the flag reset runs; the catch
rethrows NotFoundError unchanged and wraps any other failure as
ReadError. -/
def find (drvFindByPk : JSVal → Except String (Option JSVal)) (id : JSVal) (s : State) :
    Except SeqError (Option JSVal) × State :=
  match drvFindByPk id with
  | .error m =>
      (.error (.readError
        ("Error finding " ++ s.identifier ++ " with id " ++ jsToString id ++ ": " ++ m)), s)
  | .ok none =>
      if s.throwErrorFlag then
        (.error (.notFoundError (s.identifier ++ " not found with id " ++ jsToString id)), s)
      else
        (.ok none, { s with throwErrorFlag := false })
  | .ok (some item) => (.ok (some item), { s with throwErrorFlag := false })

/-- first (lines 309-325): builds options, issues findOne, clears on
success; a null result with the flag set raises NotFoundError which
the catch rethrows unchanged; for any other failure the catch evaluates
a message template that references the undefined identifier id, so a
ReferenceError is raised instead of the intended ReadError. -/
def first (drvFindOne : Options → Except String (Option JSVal)) (s : State) :
    Except SeqError (Option JSVal) × State :=
  let s1 := buildOptions s
  match drvFindOne s1.options with
  | .error _ => (.error (.referenceError "id is not defined"), s1)
  | .ok none =>
      if s1.throwErrorFlag then
        (.error (.notFoundError (s1.identifier ++ " not found")), s1)
      else
        (.ok none, clear s1)
  | .ok (some item) => (.ok (some item), clear s1)

/-- exists (lines 327-343): builds options, overrides where when
explicit conditions are given, issues findOne, clears on success and
returns whether a row came back; wraps rejection as ReadError.  The
typeof object check on the conditions argument passes for both null
and objects, the only shapes representable here. -/
def existsOp (drvFindOne : Options → Except String (Option JSVal)) (conditions : Option Conds)
    (s : State) : Except SeqError Bool × State :=
  let s1 := buildOptions s
  let s2 :=
    match conditions with
    | some c => { s1 with options := objSet s1.options "where" (.whereV c) }
    | none => s1
  match drvFindOne s2.options with
  | .ok item => (.ok item.isSome, clear s2)
  | .error m => (.error (.readError ("Error in exists method: " ++ m)), s2)

/-- update (lines 345-360): builds options and applies the explicit
conditions override, then calls table.update WITHOUT await: the
returned promise is never inspected by the try/catch, clear() runs
unconditionally, and a driver rejection reaches the awaiting caller as
the raw driver error (the catch block is unreachable for the
promise-based driver API, and would anyway invoke UpdateError without
new). -/
def update (drvUpdate : JSVal → Options → Except String Int) (payload : JSVal)
    (conditions : Option Conds) (s : State) : Except SeqError Int × State :=
  let s1 := buildOptions s
  let s2 :=
    match conditions with
    | some c => { s1 with options := objSet s1.options "where" (.whereV c) }
    | none => s1
  let outcome := drvUpdate payload s2.options
  let s3 := clear s2
  match outcome with
  | .ok n => (.ok n, s3)
  | .error m => (.error (.rawDriver m), s3)

/-- delete (lines 362-377): builds options with the explicit override,
awaits destroy, clears on success, wraps rejection as DeleteError. -/
def deleteOp (drvDestroy : Options → Except String Int) (conditions : Option Conds)
    (s : State) : Except SeqError Int × State :=
  let s1 := buildOptions s
  let s2 :=
    match conditions with
    | some c => { s1 with options := objSet s1.options "where" (.whereV c) }
    | none => s1
  match drvDestroy s2.options with
  | .ok n => (.ok n, clear s2)
  | .error m => (.error (.deleteError ("Error deleting from " ++ s.identifier ++ ": " ++ m)), s2)

/-- truncate (lines 379-387): one destroy call with a fixed truncate
options object; builder state untouched on every path. -/
def truncate (drvDestroy : Options → Except String Int) (s : State) :
    Except SeqError Unit × State :=
  match drvDestroy [("where", .whereV []), ("truncate", .js (.bool true))] with
  | .ok _ => (.ok (), s)
  | .error m => (.error (.deleteError ("Error truncating " ++ s.identifier ++ ": " ++ m)), s)

/-- A table snapshot for semantic claims about reads: the list of
stored rows, each a record of column bindings. -/
abbrev Table := List Conds

/-- Whether a row satisfies an equality-condition map: every condition
binding is present in the row with a matching value. -/
def rowMatches (conds : Conds) (row : Conds) : Bool :=
  conds.all fun p => List.lookup p.1 row == some p.2

/-- Modelled from the spec: the count method is absent from
lib/Sequerizer.js (only the test suite and the README call it).  Per
the spec, count(conditions = null) returns the integer count of rows
matching the given conditions, defaulting to all rows of the table
when none are given. -/
def count (conditions : Option Conds) (tbl : Table) : Nat :=
  (tbl.filter fun row => rowMatches (match conditions with | some c => c | none => []) row).length

/-- The chained expression (await q.verify(cb)).create(data), run
against a table modelled as a list of stored records: when verify
raises, the create call is never evaluated and the table is unchanged;
otherwise create appends the record (the driver accepting the data). -/
def verifyThenCreate (cb : State → JSVal × State) (data : JSVal) (s : State) (tbl : List JSVal) :
    Except SeqError JSVal × List JSVal :=
  match verifyOp cb s with
  | .error e => (.error e, tbl)
  | .ok s1 =>
      match create (fun d => .ok d) data s1 with
      | (.ok r, _) => (.ok r, tbl ++ [r])
      | (.error e, _) => (.error e, tbl)

/-! ### Association-list lemmas -/

theorem lookup_objSet {V : Type} (o : List (String × V)) (k k' : String) (v : V) :
    List.lookup k' (objSet o k v) = if k' = k then some v else List.lookup k' o := by
  induction o with
  | nil =>
      by_cases h : k' = k
      · simp [objSet, List.lookup_cons, h]
      · simp [objSet, List.lookup_cons, h, beq_false_of_ne h]
  | cons p t ih =>
      obtain ⟨pk, pv⟩ := p
      by_cases hp : pk = k
      · by_cases h : k' = k
        · simp [objSet, List.lookup_cons, hp, h]
        · have hne : k' ≠ pk := fun hc => h (hc.trans hp)
          simp [objSet, List.lookup_cons, hp, h, beq_false_of_ne h, beq_false_of_ne hne]
      · by_cases hq : k' = pk
        · have h : k' ≠ k := fun hc => hp (hq.symm.trans hc)
          simp [objSet, List.lookup_cons, beq_false_of_ne hp, hp, hq, h, beq_false_of_ne h]
        · simp [objSet, List.lookup_cons, beq_false_of_ne hp, beq_false_of_ne hq, hq, ih]

theorem hasKey_eq_isSome {V : Type} (o : List (String × V)) (k : String) :
    hasKey o k = (List.lookup k o).isSome := by
  induction o with
  | nil => simp [hasKey, List.lookup]
  | cons p t ih =>
      obtain ⟨pk, pv⟩ := p
      by_cases h : pk = k
      · simp [hasKey, List.lookup_cons, h]
      · have h2 : k ≠ pk := fun hc => h hc.symm
        simp only [hasKey, List.any_cons, beq_false_of_ne h, Bool.false_or,
          List.lookup_cons, beq_false_of_ne h2, if_false]
        exact ih

/-! ### Per-step lemmas about the buildOptions pipeline -/

theorem lookup_ensureWhere_ne (c : Conds) (o : Options) (k : String) (h : k ≠ "where") :
    List.lookup k (ensureWhere c o) = List.lookup k o := by
  unfold ensureWhere
  split
  · rfl
  · simp [lookup_objSet, h]

theorem lookup_ensureWhere_self (c : Conds) (o : Options) :
    List.lookup "where" (ensureWhere c o) =
      if hasKey o "where" then List.lookup "where" o else some (.whereV c) := by
  unfold ensureWhere
  split <;> simp_all [lookup_objSet]

theorem lookup_ensureAttributes_ne (a : List String) (o : Options) (k : String)
    (h : k ≠ "attributes") :
    List.lookup k (ensureAttributes a o) = List.lookup k o := by
  unfold ensureAttributes
  split
  · simp [lookup_objSet, h]
  · rfl

theorem lookup_ensureAttributes_self (a : List String) (o : Options) :
    List.lookup "attributes" (ensureAttributes a o) =
      if hasKey o "attributes" then List.lookup "attributes" o
      else if a.length > 0 then some (.attrs a) else none := by
  unfold ensureAttributes
  by_cases hk : hasKey o "attributes"
  · simp [hk]
  · have hnone : List.lookup "attributes" o = none := by
      have := hasKey_eq_isSome o "attributes"
      exact Option.not_isSome_iff_eq_none.mp (by simp [← this, hk])
    by_cases ha : a.length > 0
    · simp [hk, ha, lookup_objSet]
    · simp [hk, ha, hnone]

theorem lookup_ensureOrder_ne (ords : List (String × String)) (o : Options) (k : String)
    (h : k ≠ "order") :
    List.lookup k (ensureOrder ords o) = List.lookup k o := by
  unfold ensureOrder
  split
  · simp [lookup_objSet, h]
  · rfl

theorem lookup_ensureOrder_self (ords : List (String × String)) (o : Options) :
    List.lookup "order" (ensureOrder ords o) =
      if hasKey o "order" then List.lookup "order" o
      else if ords.length > 0 then some (.ord ords) else none := by
  unfold ensureOrder
  by_cases hk : hasKey o "order"
  · simp [hk]
  · have hnone : List.lookup "order" o = none := by
      have := hasKey_eq_isSome o "order"
      exact Option.not_isSome_iff_eq_none.mp (by simp [← this, hk])
    by_cases ha : ords.length > 0
    · simp [hk, ha, lookup_objSet]
    · simp [hk, ha, hnone]

theorem lookup_ensureLimit_ne (lv : Option Int) (o : Options) (k : String) (h : k ≠ "limit") :
    List.lookup k (ensureLimit lv o) = List.lookup k o := by
  cases lv with
  | none => rfl
  | some n =>
      simp only [ensureLimit]
      split
      · rfl
      · simp [lookup_objSet, h]

theorem lookup_ensureLimit_self (lv : Option Int) (o : Options) :
    List.lookup "limit" (ensureLimit lv o) =
      if hasKey o "limit" then List.lookup "limit" o
      else lv.map OptVal.int := by
  cases lv with
  | none =>
      by_cases hk : hasKey o "limit"
      · simp [ensureLimit, hk]
      · have hnone : List.lookup "limit" o = none := by
          have := hasKey_eq_isSome o "limit"
          exact Option.not_isSome_iff_eq_none.mp (by simp [← this, hk])
        simp [ensureLimit, hk, hnone]
  | some n =>
      by_cases hk : hasKey o "limit"
      · simp [ensureLimit, hk]
      · simp [ensureLimit, hk, lookup_objSet]

theorem lookup_ensureOffset_ne (ov : Option Int) (o : Options) (k : String) (h : k ≠ "offset") :
    List.lookup k (ensureOffset ov o) = List.lookup k o := by
  cases ov with
  | none => rfl
  | some n =>
      simp only [ensureOffset]
      split
      · rfl
      · simp [lookup_objSet, h]

theorem lookup_ensureOffset_self (ov : Option Int) (o : Options) :
    List.lookup "offset" (ensureOffset ov o) =
      if hasKey o "offset" then List.lookup "offset" o
      else ov.map OptVal.int := by
  cases ov with
  | none =>
      by_cases hk : hasKey o "offset"
      · simp [ensureOffset, hk]
      · have hnone : List.lookup "offset" o = none := by
          have := hasKey_eq_isSome o "offset"
          exact Option.not_isSome_iff_eq_none.mp (by simp [← this, hk])
        simp [ensureOffset, hk, hnone]
  | some n =>
      by_cases hk : hasKey o "offset"
      · simp [ensureOffset, hk]
      · simp [ensureOffset, hk, lookup_objSet]

theorem hasKey_ensureWhere_ne (c : Conds) (o : Options) (k : String) (h : k ≠ "where") :
    hasKey (ensureWhere c o) k = hasKey o k := by
  rw [hasKey_eq_isSome, hasKey_eq_isSome, lookup_ensureWhere_ne _ _ _ h]

theorem hasKey_ensureAttributes_ne (a : List String) (o : Options) (k : String)
    (h : k ≠ "attributes") :
    hasKey (ensureAttributes a o) k = hasKey o k := by
  rw [hasKey_eq_isSome, hasKey_eq_isSome, lookup_ensureAttributes_ne _ _ _ h]

theorem hasKey_ensureOrder_ne (ords : List (String × String)) (o : Options) (k : String)
    (h : k ≠ "order") :
    hasKey (ensureOrder ords o) k = hasKey o k := by
  rw [hasKey_eq_isSome, hasKey_eq_isSome, lookup_ensureOrder_ne _ _ _ h]

theorem hasKey_ensureLimit_ne (lv : Option Int) (o : Options) (k : String) (h : k ≠ "limit") :
    hasKey (ensureLimit lv o) k = hasKey o k := by
  rw [hasKey_eq_isSome, hasKey_eq_isSome, lookup_ensureLimit_ne _ _ _ h]

theorem lookup_ensureWhere_preserve (c : Conds) (o : Options) (k : String) (v : OptVal)
    (h : List.lookup k o = some v) :
    List.lookup k (ensureWhere c o) = some v := by
  by_cases hk : k = "where"
  · subst hk
    have hs : hasKey o "where" = true := by rw [hasKey_eq_isSome, h]; rfl
    rw [lookup_ensureWhere_self, if_pos hs, h]
  · rw [lookup_ensureWhere_ne _ _ _ hk, h]

theorem lookup_ensureAttributes_preserve (a : List String) (o : Options) (k : String)
    (v : OptVal) (h : List.lookup k o = some v) :
    List.lookup k (ensureAttributes a o) = some v := by
  by_cases hk : k = "attributes"
  · subst hk
    have hs : hasKey o "attributes" = true := by rw [hasKey_eq_isSome, h]; rfl
    rw [lookup_ensureAttributes_self, if_pos hs, h]
  · rw [lookup_ensureAttributes_ne _ _ _ hk, h]

theorem lookup_ensureOrder_preserve (ords : List (String × String)) (o : Options) (k : String)
    (v : OptVal) (h : List.lookup k o = some v) :
    List.lookup k (ensureOrder ords o) = some v := by
  by_cases hk : k = "order"
  · subst hk
    have hs : hasKey o "order" = true := by rw [hasKey_eq_isSome, h]; rfl
    rw [lookup_ensureOrder_self, if_pos hs, h]
  · rw [lookup_ensureOrder_ne _ _ _ hk, h]

theorem lookup_ensureLimit_preserve (lv : Option Int) (o : Options) (k : String) (v : OptVal)
    (h : List.lookup k o = some v) :
    List.lookup k (ensureLimit lv o) = some v := by
  by_cases hk : k = "limit"
  · subst hk
    have hs : hasKey o "limit" = true := by rw [hasKey_eq_isSome, h]; rfl
    rw [lookup_ensureLimit_self, if_pos hs, h]
  · rw [lookup_ensureLimit_ne _ _ _ hk, h]

theorem lookup_ensureOffset_preserve (ov : Option Int) (o : Options) (k : String) (v : OptVal)
    (h : List.lookup k o = some v) :
    List.lookup k (ensureOffset ov o) = some v := by
  by_cases hk : k = "offset"
  · subst hk
    have hs : hasKey o "offset" = true := by rw [hasKey_eq_isSome, h]; rfl
    rw [lookup_ensureOffset_self, if_pos hs, h]
  · rw [lookup_ensureOffset_ne _ _ _ hk, h]

/-- Claim C5: buildOptions derives the final options as follows: the
accumulated conditions become the where key unless the overlay already
defines where; the projection list becomes attributes only if
non-empty; the order list becomes order only if non-empty; limit and
offset are set only if non-null; and in every case a key already
present in the overlay map keeps its overlay value. -/
theorem C5_buildOptions_spec (s : State) :
    (List.lookup "where" (buildOptions s).options =
       if hasKey s.options "where" then List.lookup "where" s.options
       else some (.whereV s.conditions))
    ∧ (List.lookup "attributes" (buildOptions s).options =
       if hasKey s.options "attributes" then List.lookup "attributes" s.options
       else if s.attributes.length > 0 then some (.attrs s.attributes) else none)
    ∧ (List.lookup "order" (buildOptions s).options =
       if hasKey s.options "order" then List.lookup "order" s.options
       else if s.orders.length > 0 then some (.ord s.orders) else none)
    ∧ (List.lookup "limit" (buildOptions s).options =
       if hasKey s.options "limit" then List.lookup "limit" s.options
       else s.limitValue.map OptVal.int)
    ∧ (List.lookup "offset" (buildOptions s).options =
       if hasKey s.options "offset" then List.lookup "offset" s.options
       else s.offsetValue.map OptVal.int)
    ∧ (∀ k v, List.lookup k s.options = some v →
        List.lookup k (buildOptions s).options = some v) := by
  refine ⟨?_, ?_, ?_, ?_, ?_, ?_⟩
  · show List.lookup "where" (ensureOffset _ (ensureLimit _ (ensureOrder _ (ensureAttributes _ (ensureWhere _ _))))) = _
    rw [lookup_ensureOffset_ne _ _ _ (by decide), lookup_ensureLimit_ne _ _ _ (by decide),
      lookup_ensureOrder_ne _ _ _ (by decide), lookup_ensureAttributes_ne _ _ _ (by decide),
      lookup_ensureWhere_self]
  · show List.lookup "attributes" (ensureOffset _ (ensureLimit _ (ensureOrder _ (ensureAttributes _ (ensureWhere _ _))))) = _
    rw [lookup_ensureOffset_ne _ _ _ (by decide), lookup_ensureLimit_ne _ _ _ (by decide),
      lookup_ensureOrder_ne _ _ _ (by decide), lookup_ensureAttributes_self,
      hasKey_ensureWhere_ne _ _ _ (by decide), lookup_ensureWhere_ne _ _ _ (by decide)]
  · show List.lookup "order" (ensureOffset _ (ensureLimit _ (ensureOrder _ (ensureAttributes _ (ensureWhere _ _))))) = _
    rw [lookup_ensureOffset_ne _ _ _ (by decide), lookup_ensureLimit_ne _ _ _ (by decide),
      lookup_ensureOrder_self, hasKey_ensureAttributes_ne _ _ _ (by decide),
      hasKey_ensureWhere_ne _ _ _ (by decide), lookup_ensureAttributes_ne _ _ _ (by decide),
      lookup_ensureWhere_ne _ _ _ (by decide)]
  · show List.lookup "limit" (ensureOffset _ (ensureLimit _ (ensureOrder _ (ensureAttributes _ (ensureWhere _ _))))) = _
    rw [lookup_ensureOffset_ne _ _ _ (by decide), lookup_ensureLimit_self,
      hasKey_ensureOrder_ne _ _ _ (by decide), hasKey_ensureAttributes_ne _ _ _ (by decide),
      hasKey_ensureWhere_ne _ _ _ (by decide), lookup_ensureOrder_ne _ _ _ (by decide),
      lookup_ensureAttributes_ne _ _ _ (by decide), lookup_ensureWhere_ne _ _ _ (by decide)]
  · show List.lookup "offset" (ensureOffset _ (ensureLimit _ (ensureOrder _ (ensureAttributes _ (ensureWhere _ _))))) = _
    rw [lookup_ensureOffset_self, hasKey_ensureLimit_ne _ _ _ (by decide),
      hasKey_ensureOrder_ne _ _ _ (by decide), hasKey_ensureAttributes_ne _ _ _ (by decide),
      hasKey_ensureWhere_ne _ _ _ (by decide), lookup_ensureLimit_ne _ _ _ (by decide),
      lookup_ensureOrder_ne _ _ _ (by decide), lookup_ensureAttributes_ne _ _ _ (by decide),
      lookup_ensureWhere_ne _ _ _ (by decide)]
  · intro k v h
    exact lookup_ensureOffset_preserve _ _ _ _
      (lookup_ensureLimit_preserve _ _ _ _
        (lookup_ensureOrder_preserve _ _ _ _
          (lookup_ensureAttributes_preserve _ _ _ _
            (lookup_ensureWhere_preserve _ _ _ _ h))))

/-- Witness for C5 at a concrete state: the overlay already defines
limit, so buildOptions keeps the overlay value even though limitValue
is set. -/
theorem C5_buildOptions_spec_witness :
    List.lookup "limit"
      ({ initialState "users" with
          options := [("limit", OptVal.int 5)], limitValue := some 9 } : State).options
      = some (OptVal.int 5)
    ∧ List.lookup "limit"
        (buildOptions { initialState "users" with
          options := [("limit", OptVal.int 5)], limitValue := some 9 }).options
      = some (OptVal.int 5) :=
  ⟨rfl, (C5_buildOptions_spec _).2.2.2.2.2 "limit" (OptVal.int 5) rfl⟩

/-- Claim C3: for an id the table does not contain (the driver lookup
resolves to null), find returns null when the throwError flag is
false, and raises NotFoundError when withError(true) was called
immediately before; the error produced is the not-found kind, not the
read-kind wrapper. -/
theorem C3_find_missing_policy (id : JSVal) (s : State) :
    find (fun _ => Except.ok none) id { s with throwErrorFlag := false }
      = (.ok none, { s with throwErrorFlag := false })
    ∧ find (fun _ => Except.ok none) id (withError true s)
      = (.error (.notFoundError (s.identifier ++ " not found with id " ++ jsToString id)),
         withError true s) :=
  ⟨rfl, rfl⟩

/-- Claim C7 (count is modelled from the spec, the method being absent
from lib/Sequerizer.js): count with conditions returns the number of
rows matching them, and count with no conditions returns the total row
count of the table. -/
theorem C7_count_spec (tbl : Table) (conds : Conds) :
    count none tbl = tbl.length
    ∧ count (some conds) tbl = tbl.countP (fun row => rowMatches conds row) := by
  constructor
  · simp [count, rowMatches]
  · simp [count, List.countP_eq_length_filter]

/-- Claim C8: chaining where(a,b).where(c,d) accumulates the same
conditions as the single map-form call where(obj [(a,b),(c,d)]), from
any starting state; and from a fresh builder with distinct columns the
accumulated conditions are exactly the two-entry map. -/
theorem C8_where_chain_map_equiv (a c : String) (b d : JSVal) (s : State) :
    whereOp (.str c) d (whereOp (.str a) b s) = whereOp (.obj [(a, b), (c, d)]) .null s
    ∧ (a ≠ c →
        (whereOp (.str c) d (whereOp (.str a) b (initialState "t"))).conditions
          = [(a, b), (c, d)]) := by
  constructor
  · rfl
  · intro h
    simp [whereOp, initialState, objSet, beq_false_of_ne h]

/-- Witness for C8 at concrete distinct columns. -/
theorem C8_where_chain_map_equiv_witness :
    (whereOp (.str "views") (.num 0) (whereOp (.str "title") (.str "Hot News")
        (initialState "t"))).conditions
      = [("title", .str "Hot News"), ("views", .num 0)] :=
  (C8_where_chain_map_equiv "title" "views" (.str "Hot News") (.num 0)
    (initialState "t")).2 (by decide)

/-- Claim C9: a verify middleware whose predicate resolves to false
makes the chain raise the generic ModelError, so the chained create is
never executed and the backing table gains no row. -/
theorem C9_verify_false_blocks_create (cb : State → JSVal × State) (data : JSVal)
    (s s1 : State) (tbl : List JSVal) (h : cb s = (.bool false, s1)) :
    verifyThenCreate cb data s tbl
      = (.error (.modelError "Unverified state occured"), tbl) := by
  simp [verifyThenCreate, verifyOp, h, jsTypeof]

/-- Witness for C9: a constant-false predicate over a fresh builder
and an empty table. -/
theorem C9_verify_false_blocks_create_witness :
    verifyThenCreate (fun st => (.bool false, st)) (.obj [("title", .str "Unique Title")])
        (initialState "posts") []
      = (.error (.modelError "Unverified state occured"), []) :=
  C9_verify_false_blocks_create _ _ _ _ _ rfl

/-- Claim C10: calling where with a first argument that is neither a
string nor an object (by typeof) raises nothing and leaves the whole
builder state, conditions included, unchanged. -/
theorem C10_where_non_string_object_noop (x v : JSVal) (s : State)
    (h1 : jsTypeof x ≠ "string") (h2 : jsTypeof x ≠ "object") :
    whereOp x v s = s := by
  cases x with
  | str c => exact absurd rfl h1
  | obj m => exact absurd rfl h2
  | arr e => exact absurd rfl h2
  | null => exact absurd rfl h2
  | bool b => rfl
  | num n => rfl

/-- Witness for C10 at a numeric first argument. -/
theorem C10_where_non_string_object_noop_witness :
    jsTypeof (.num 3) ≠ "string" ∧ jsTypeof (.num 3) ≠ "object"
    ∧ whereOp (.num 3) (.str "v") (initialState "t") = initialState "t" :=
  ⟨by decide, by decide,
    C10_where_non_string_object_noop (.num 3) (.str "v") (initialState "t")
      (by decide) (by decide)⟩

/-- Counterexample to claim C1: a create that completes successfully
after a where call leaves the accumulated conditions in place, so the
builder state after this terminal operation is not the empty/default
form. -/
theorem C1_counterexample :
    (create (fun d => Except.ok d) (.obj [("name", .str "u")])
        (whereOp (.str "status") (.bool true) (initialState "users"))).1
      = .ok (.obj [("name", .str "u")])
    ∧ (create (fun d => Except.ok d) (.obj [("name", .str "u")])
        (whereOp (.str "status") (.bool true) (initialState "users"))).2.conditions
      = [("status", .bool true)]
    ∧ isCleared (create (fun d => Except.ok d) (.obj [("name", .str "u")])
        (whereOp (.str "status") (.bool true) (initialState "users"))).2 = false :=
  ⟨rfl, rfl, rfl⟩

/-- Amended claim C1: of the terminal operations, get, getWhere,
first, exists, update and delete reset the builder state to the
empty/default form when they complete without throwing; create, insert
and truncate leave the builder state entirely unchanged; find and
getOrCreate reset only the throwError flag, leaving every other field
untouched; and the state clear produces is the empty/default form. -/
theorem C1_amended_reset_policy :
    (∀ (drv : JSVal → Except String JSVal) (data : JSVal) (s : State),
       (create drv data s).2 = s)
    ∧ (∀ (drvC : JSVal → Except String JSVal)
         (drvB : List JSVal → Except String (List JSVal)) (data : JSVal) (s : State),
       (insert drvC drvB data s).2 = s)
    ∧ (∀ (drv : Options → Except String Int) (s : State), (truncate drv s).2 = s)
    ∧ (∀ (items : List JSVal) (cols : List String) (conds : Option Conds) (s : State),
       get (fun _ => Except.ok items) cols conds s = (.ok items, clear s))
    ∧ (∀ (items : List JSVal) (conds : Option Conds) (s : State),
       getWhere (fun _ => Except.ok items) conds s = (.ok items, clear s))
    ∧ (∀ (item : JSVal) (s : State),
       first (fun _ => Except.ok (some item)) s = (.ok (some item), clear s))
    ∧ (∀ (s : State),
       first (fun _ => Except.ok none) { s with throwErrorFlag := false }
         = (.ok none, clear s))
    ∧ (∀ (item : Option JSVal) (conds : Option Conds) (s : State),
       existsOp (fun _ => Except.ok item) conds s = (.ok item.isSome, clear s))
    ∧ (∀ (n : Int) (payload : JSVal) (conds : Option Conds) (s : State),
       update (fun _ _ => Except.ok n) payload conds s = (.ok n, clear s))
    ∧ (∀ (n : Int) (conds : Option Conds) (s : State),
       deleteOp (fun _ => Except.ok n) conds s = (.ok n, clear s))
    ∧ (∀ (item : JSVal) (id : JSVal) (s : State),
       find (fun _ => Except.ok (some item)) id s
         = (.ok (some item), { s with throwErrorFlag := false }))
    ∧ (∀ (row : JSVal) (d : List (String × JSVal)) (s : State),
       getOrCreate (fun _ => Except.ok (row, true)) (.obj d) s
         = (.ok row, { s with throwErrorFlag := false }))
    ∧ (∀ (s : State), isCleared (clear s) = true) := by
  refine ⟨?_, ?_, ?_, ?_, ?_, ?_, ?_, ?_, ?_, ?_, ?_, ?_, ?_⟩
  · intro drv data s
    unfold create
    split
    · rfl
    · split <;> rfl
  · intro drvC drvB data s
    unfold insert
    split
    · rfl
    · split
      · split <;> rfl
      · split <;> rfl
  · intro drv s
    unfold truncate
    split <;> rfl
  · intro items cols conds s
    cases conds with
    | none => by_cases h : cols.length > 0 <;> simp [get, h, clear, buildOptions]
    | some c => by_cases h : cols.length > 0 <;> simp [get, h, clear, buildOptions]
  · intro items conds s
    cases conds <;> rfl
  · intro item s
    rfl
  · intro s
    rfl
  · intro item conds s
    cases conds <;> rfl
  · intro n payload conds s
    cases conds <;> rfl
  · intro n conds s
    cases conds <;> rfl
  · intro item id s
    rfl
  · intro row d s
    rfl
  · intro s
    rfl

/-- Claim C2 failing evaluation: when the driver update call rejects,
the operation surfaces the raw driver rejection, not an update-kind
error naming the table (the promise is returned un-awaited, so the
catch block never runs and the state is still cleared). -/
theorem C2_update_raw_driver_escape :
    update (fun _ _ => Except.error "boom") (.obj [("views", .num 10)]) none
        (initialState "posts")
      = (.error (.rawDriver "boom"), initialState "posts") :=
  rfl

/-- Counterexample to claim C4: after find raises NotFoundError for a
missing id, the throwError flag is still true, so the flag is not
reset on every outcome. -/
theorem C4_counterexample :
    (find (fun _ => Except.ok none) (.num 99999)
        (withError true (initialState "users"))).1
      = .error (.notFoundError "users not found with id 99999")
    ∧ (find (fun _ => Except.ok none) (.num 99999)
        (withError true (initialState "users"))).2.throwErrorFlag = true :=
  ⟨rfl, rfl⟩

/-- Amended claim C4: find and getOrCreate reset the throwError flag
exactly when they return normally; on every raising path (not-found,
already-exists, or driver failure) the builder state, flag included,
is left as it was, so a previously set flag remains true. -/
theorem C4_amended_flag_reset :
    (∀ (item : JSVal) (id : JSVal) (s : State),
       (find (fun _ => Except.ok (some item)) id s).2.throwErrorFlag = false)
    ∧ (∀ (id : JSVal) (s : State),
       (find (fun _ => Except.ok none) id { s with throwErrorFlag := false
         }).2.throwErrorFlag = false)
    ∧ (∀ (id : JSVal) (s : State),
       find (fun _ => Except.ok none) id (withError true s)
         = (.error (.notFoundError (s.identifier ++ " not found with id " ++ jsToString id)),
            withError true s))
    ∧ (∀ (m : String) (id : JSVal) (s : State),
       find (fun _ => Except.error m) id s
         = (.error (.readError ("Error finding " ++ s.identifier ++ " with id "
             ++ jsToString id ++ ": " ++ m)), s))
    ∧ (∀ (row : JSVal) (d : List (String × JSVal)) (s : State),
       (getOrCreate (fun _ => Except.ok (row, true)) (.obj d) s).2.throwErrorFlag = false)
    ∧ (∀ (row : JSVal) (d : List (String × JSVal)) (s : State),
       getOrCreate (fun _ => Except.ok (row, false)) (.obj d) (withError true s)
         = (.error (.createError (s.identifier ++ " already exists with data "
             ++ jsonStringify (.obj d))), withError true s))
    ∧ (∀ (m : String) (d : List (String × JSVal)) (s : State),
       getOrCreate (fun _ => Except.error m) (.obj d) s
         = (.error (.modelError ("Error creating or finding " ++ s.identifier ++ ": " ++ m)),
            s)) :=
  ⟨fun _ _ _ => rfl, fun _ _ => rfl, fun _ _ => rfl, fun _ _ _ => rfl,
   fun _ _ _ => rfl, fun _ _ _ => rfl, fun _ _ _ => rfl⟩

/-- Claim C6 failing evaluation: a driver rejection inside first makes
the catch clause itself fail while building the ReadError message (it
references the undefined identifier id), so first raises a
ReferenceError rather than a read-kind error; a NotFoundError raised
inside first is re-thrown unchanged. -/
theorem C6_first_catch_reference_error :
    (first (fun _ => Except.error "boom") (initialState "users")).1
      = .error (.referenceError "id is not defined")
    ∧ (first (fun _ => Except.ok none) (withError true (initialState "users"))).1
      = .error (.notFoundError "users not found") :=
  ⟨rfl, rfl⟩

end Sequerizer
